import Mathlib

/-!
Verification of the backend of the prompt-tester service
(src/backend/main.py) against its specification.

The embedding models the pure content of the module:

* the rate limiter `check_rate_limit` acting on an explicit usage log
  (the Python global `user_request_counts`, a mapping from user id to a
  list of float timestamps, modelled here as `String → List ℚ`);
* the authentication dependency `get_current_user`, parametrised by the
  external token verifier (an oracle `String → Option Payload`);
* the endpoint handler `invoke_model`, parametrised by the Upstream
  Model Gateway (an oracle returning `Except String ρ`, where an
  `Except.error` models a raised exception of any content).

HTTP exceptions are modelled as `HTTPError` values carrying the status
code and the detail string; a handler returns `Except HTTPError ρ`
together with the usage log after the call.
-/

/-- Source line 41: RATE_LIMIT_REQUESTS = 10 (max requests per window per user). -/
def RATE_LIMIT_REQUESTS : Nat := 10

/-- Source line 42: RATE_LIMIT_WINDOW = 60, the window length in seconds,
as the integer the source holds. -/
def RATE_LIMIT_WINDOW_NAT : Nat := 60

/-- The window length as a rational, for comparison with timestamps
(the source compares the integer against float timestamps). -/
def RATE_LIMIT_WINDOW : ℚ := RATE_LIMIT_WINDOW_NAT

/-- Source line 43: user_request_counts = defaultdict(list). The state is a
total map from user id to the list of stored timestamps; a user never seen
maps to the empty list, exactly as the defaultdict does. -/
abbrev UsageLog := String → List ℚ

/-- The state of user_request_counts at process start: every user maps to []. -/
def emptyUsageLog : UsageLog := fun _ => []

/-- Source lines 103 to 106: the list comprehension keeping every stored
req_time with current_time - req_time < RATE_LIMIT_WINDOW. -/
def prune (log : List ℚ) (current_time : ℚ) : List ℚ :=
  log.filter (fun req_time => decide (current_time - req_time < RATE_LIMIT_WINDOW))

/-- Source lines 98 to 114: check_rate_limit(user_id). It first overwrites
the entry of user_id with the pruned list (this happens in both branches),
then returns False if the pruned length is at least RATE_LIMIT_REQUESTS,
otherwise appends current_time and returns True. The rational current_time
stands for the float time.time(). -/
def check_rate_limit (counts : UsageLog) (user_id : String) (current_time : ℚ) :
    Bool × UsageLog :=
  if (prune (counts user_id) current_time).length ≥ RATE_LIMIT_REQUESTS then
    (false, fun u => if u = user_id then prune (counts user_id) current_time else counts u)
  else
    (true, fun u =>
      if u = user_id then prune (counts user_id) current_time ++ [current_time] else counts u)

/-- Source lines 45 to 65: the fixed allow-list of model identifiers. -/
def MODELS : List String :=
  ["gpt-4",
   "gpt-4-turbo",
   "gpt-4o",
   "gpt-4o-mini",
   "gpt-4.1",
   "gpt-4.1-mini",
   "gpt-4.1-nano",
   "gpt-4.5-preview",
   "o1-preview",
   "o1-mini",
   "o1",
   "o3-mini",
   "o3",
   "o3-pro",
   "o4-mini",
   "gpt-5",
   "gpt-5-mini",
   "gpt-5-nano"]

/-- Source lines 68 to 72: the ModelRequest payload. The pydantic bound
0 ≤ temperature ≤ 2 is a validation constraint, stated as hypotheses where
a claim needs it. -/
structure ModelRequest where
  prompt : String
  model : String
  temperature : ℚ
  web_search : Bool
deriving DecidableEq

/-- An HTTPException as raised by the handlers: status code and detail. -/
structure HTTPError where
  status_code : Nat
  detail : String
deriving DecidableEq

/-- The payload returned by verify_supabase_token (source lines 83 to 88):
the fields read by invoke_model are sub and email. -/
structure Payload where
  sub : String
  email : String
deriving DecidableEq

/-- Source lines 117 to 128: get_current_user. The external verifier
(verify_supabase_token, itself a call into the identity provider) is the
oracle vtok; credentials is the bearer token when the Authorization header
is present. Missing credentials give 401 "Authorization header missing";
a token the verifier rejects gives 401 "Invalid or expired token". -/
def get_current_user (vtok : String → Option Payload) (credentials : Option String) :
    Except HTTPError Payload :=
  match credentials with
  | none => Except.error ⟨401, "Authorization header missing"⟩
  | some token =>
    match vtok token with
    | none => Except.error ⟨401, "Invalid or expired token"⟩
    | some payload => Except.ok payload

/-- A tool descriptor passed to the upstream gateway; ty models the value
of the "type" key of the Python dict. -/
structure ToolDescriptor where
  ty : String
deriving DecidableEq

/-- Source line 172: the single web-search tool descriptor. -/
def webSearchPreviewTool : ToolDescriptor := ⟨"web_search_preview"⟩

/-- Source lines 170 to 172: tools = [] unless request.web_search, in which
case tools is the one-element list holding the web-search descriptor. -/
def toolsFor (request : ModelRequest) : List ToolDescriptor :=
  if request.web_search then [webSearchPreviewTool] else []

/-- Python repr of a list of strings, as the f-string on source line 165
renders MODELS. -/
def pyStrListRepr (xs : List String) : String :=
  "[" ++ String.intercalate ", " (xs.map (fun s => "\x27" ++ s ++ "\x27")) ++ "]"

/-- Source line 165: the 400 detail naming the offending model and listing
the allow-list. -/
def modelNotFoundMsg (model : String) : String :=
  "Model \x27" ++ model ++ "\x27 is not found in the list of models. Allowed models: "
    ++ pyStrListRepr MODELS

/-- Source line 159: the 429 detail echoing the configured limits. -/
def rateLimitMsg : String :=
  "Rate limit exceeded. Maximum " ++ toString RATE_LIMIT_REQUESTS ++ " requests per "
    ++ toString RATE_LIMIT_WINDOW_NAT ++ " seconds."

/-- Source line 184: the generic 500 detail on upstream failure. -/
def openAIFailureMsg : String := "Failed to process request with OpenAI"

/-- Source lines 149 to 184: invoke_model, after authentication. The
upstream oracle stands for client.responses.create, taking the model, the
input prompt and the tools list; Except.error e models a raised exception
whose content is e. The result pairs the HTTP outcome with the usage log
after the call (the Python function mutates user_request_counts through
check_rate_limit; here that state is passed explicitly, and check_rate_limit
is pure, so re-evaluating it in each branch denotes the single mutation).
Branch order follows the source: rate check, then model validation, then
the upstream call with 500 on any exception. -/
def invoke_model {ρ : Type} (upstream : String → String → List ToolDescriptor → Except String ρ)
    (request : ModelRequest) (current_user : Payload) (counts : UsageLog) (now : ℚ) :
    Except HTTPError ρ × UsageLog :=
  if (check_rate_limit counts current_user.sub now).1 = false then
    (Except.error ⟨429, rateLimitMsg⟩, (check_rate_limit counts current_user.sub now).2)
  else if request.model ∉ MODELS then
    (Except.error ⟨400, modelNotFoundMsg request.model⟩,
      (check_rate_limit counts current_user.sub now).2)
  else
    match upstream request.model request.prompt (toolsFor request) with
    | Except.ok response => (Except.ok response, (check_rate_limit counts current_user.sub now).2)
    | Except.error _ =>
      (Except.error ⟨500, openAIFailureMsg⟩, (check_rate_limit counts current_user.sub now).2)

/-- A usage log with ten timestamps at time 50 for alice, used as concrete
input by witnesses. -/
def countsTen : UsageLog := fun u => if u = "alice" then List.replicate 10 (50 : ℚ) else []

/-- A usage log with a single timestamp at time 10 for alice. -/
def countsOne : UsageLog := fun u => if u = "alice" then [(10 : ℚ)] else []

/-- A concrete payload for witnesses. -/
def someUser : Payload := ⟨"user-1", "user-1@example.com"⟩

/-- A concrete request for witnesses. -/
def someRequest : ModelRequest :=
  { prompt := "hello", model := "gpt-4", temperature := 1, web_search := true }

/-- A concrete request with a model outside the allow-list. -/
def badModelRequest : ModelRequest :=
  { prompt := "hello", model := "not-a-real-model", temperature := 1, web_search := false }

/-- The concrete request at the upper temperature bound, otherwise equal
to someRequest. -/
def hotRequest : ModelRequest :=
  { prompt := "hello", model := "gpt-4", temperature := 2, web_search := true }

/-- An upstream oracle that always succeeds with a fixed body. -/
def okUpstream : String → String → List ToolDescriptor → Except String String :=
  fun _ _ _ => Except.ok "completion"

/-- An upstream oracle that always raises, with a distinctive message. -/
def failUpstream : String → String → List ToolDescriptor → Except String String :=
  fun _ _ _ => Except.error "connection refused by api.openai.com"

/-! ## Helper lemmas about the rate counter -/

/-- Rejection branch of check_rate_limit, explicitly. -/
theorem check_rate_limit_reject_eq (counts : UsageLog) (u : String) (now : ℚ)
    (h : (prune (counts u) now).length ≥ RATE_LIMIT_REQUESTS) :
    check_rate_limit counts u now =
      (false, fun v => if v = u then prune (counts u) now else counts v) := by
  unfold check_rate_limit
  rw [if_pos h]

/-- Admission branch of check_rate_limit, explicitly. -/
theorem check_rate_limit_admit_eq (counts : UsageLog) (u : String) (now : ℚ)
    (h : ¬ (prune (counts u) now).length ≥ RATE_LIMIT_REQUESTS) :
    check_rate_limit counts u now =
      (true, fun v => if v = u then prune (counts u) now ++ [now] else counts v) := by
  unfold check_rate_limit
  rw [if_neg h]

/-- If the call admitted, the log of the checked user afterwards is the
pruned list with now appended. -/
theorem check_rate_limit_admit_log (counts : UsageLog) (u : String) (now : ℚ)
    (h : (check_rate_limit counts u now).1 = true) :
    (check_rate_limit counts u now).2 u = prune (counts u) now ++ [now] := by
  by_cases hc : (prune (counts u) now).length ≥ RATE_LIMIT_REQUESTS
  · rw [check_rate_limit_reject_eq counts u now hc] at h
    simp at h
  · rw [check_rate_limit_admit_eq counts u now hc]
    simp

/-- Membership in the pruned list means membership in the old list at an
age strictly under the window. -/
theorem mem_prune_iff (log : List ℚ) (now t : ℚ) :
    t ∈ prune log now ↔ t ∈ log ∧ now - t < RATE_LIMIT_WINDOW := by
  simp [prune, List.mem_filter]

/-! ## Claims about the rate counter -/

/-- Claim C1: for every identity, once RATE_LIMIT_REQUESTS attempts stand
admitted within the trailing window, the next attempt returns false and
appends no timestamp: the log afterwards is exactly the pruned list. -/
theorem C1_reject_at_quota (counts : UsageLog) (u : String) (now : ℚ)
    (h : (prune (counts u) now).length ≥ RATE_LIMIT_REQUESTS) :
    (check_rate_limit counts u now).1 = false ∧
    (check_rate_limit counts u now).2 u = prune (counts u) now := by
  rw [check_rate_limit_reject_eq counts u now h]
  simp

/-- Witness for C1 at a concrete state: alice holds ten in-window
timestamps at time 50, checked at time 100. -/
theorem C1_reject_at_quota_witness :
    (prune (countsTen "alice") 100).length ≥ RATE_LIMIT_REQUESTS ∧
    ((check_rate_limit countsTen "alice" 100).1 = false ∧
     (check_rate_limit countsTen "alice" 100).2 "alice" = prune (countsTen "alice") 100) := by
  have h : (prune (countsTen "alice") 100).length ≥ RATE_LIMIT_REQUESTS := by
    norm_num [prune, countsTen, RATE_LIMIT_WINDOW, RATE_LIMIT_WINDOW_NAT, RATE_LIMIT_REQUESTS,
      List.replicate]
  exact ⟨h, C1_reject_at_quota countsTen "alice" 100 h⟩

/-- Claim C3: an entry of age at least RATE_LIMIT_WINDOW is purged by the
call, and when the remaining in-window entries are below quota the attempt
is admitted again. -/
theorem C3_window_expiry (counts : UsageLog) (u : String) (now t : ℚ)
    (hmem : t ∈ counts u) (hold : RATE_LIMIT_WINDOW ≤ now - t)
    (hquota : (prune (counts u) now).length < RATE_LIMIT_REQUESTS) :
    t ∉ (check_rate_limit counts u now).2 u ∧ (check_rate_limit counts u now).1 = true := by
  have hnotge : ¬ (prune (counts u) now).length ≥ RATE_LIMIT_REQUESTS := not_le.mpr hquota
  have htrue : (check_rate_limit counts u now).1 = true := by
    rw [check_rate_limit_admit_eq counts u now hnotge]
  have hlog := check_rate_limit_admit_log counts u now htrue
  refine ⟨?_, htrue⟩
  rw [hlog]
  intro hin
  rcases List.mem_append.1 hin with hin2 | heq
  · rcases (mem_prune_iff (counts u) now t).1 hin2 with ⟨-, hlt⟩
    exact absurd hold (not_le.mpr hlt)
  · have heq2 : t = now := List.mem_singleton.1 heq
    subst heq2
    have h60 : (0 : ℚ) < RATE_LIMIT_WINDOW := by
      norm_num [RATE_LIMIT_WINDOW, RATE_LIMIT_WINDOW_NAT]
    rw [sub_self] at hold
    exact absurd hold (not_le.mpr h60)

/-- Witness for C3: alice has one entry of age exactly the window at the
checking time 70; it is purged and the attempt is admitted. -/
theorem C3_window_expiry_witness :
    ((10 : ℚ) ∈ countsOne "alice" ∧
     RATE_LIMIT_WINDOW ≤ (70 : ℚ) - 10 ∧
     (prune (countsOne "alice") 70).length < RATE_LIMIT_REQUESTS) ∧
    ((10 : ℚ) ∉ (check_rate_limit countsOne "alice" 70).2 "alice" ∧
     (check_rate_limit countsOne "alice" 70).1 = true) := by
  have h1 : (10 : ℚ) ∈ countsOne "alice" := by simp [countsOne]
  have h2 : RATE_LIMIT_WINDOW ≤ (70 : ℚ) - 10 := by
    norm_num [RATE_LIMIT_WINDOW, RATE_LIMIT_WINDOW_NAT]
  have h3 : (prune (countsOne "alice") 70).length < RATE_LIMIT_REQUESTS := by
    norm_num [prune, countsOne, RATE_LIMIT_WINDOW, RATE_LIMIT_WINDOW_NAT, RATE_LIMIT_REQUESTS]
  exact ⟨⟨h1, h2, h3⟩, C3_window_expiry countsOne "alice" 70 10 h1 h2 h3⟩

/-- If the call rejected, the log of the checked user afterwards is the
pruned list. -/
theorem check_rate_limit_reject_log (counts : UsageLog) (u : String) (now : ℚ)
    (h : (prune (counts u) now).length ≥ RATE_LIMIT_REQUESTS) :
    (check_rate_limit counts u now).2 u = prune (counts u) now := by
  rw [check_rate_limit_reject_eq counts u now h]
  simp

/-- The admission decision for a user depends only on the stored list of
that user. -/
theorem check_rate_limit_fst_congr (s t : UsageLog) (v : String) (n : ℚ)
    (h : s v = t v) :
    (check_rate_limit s v n).1 = (check_rate_limit t v n).1 := by
  unfold check_rate_limit
  rw [h]
  by_cases hc : (prune (t v) n).length ≥ RATE_LIMIT_REQUESTS
  · rw [if_pos hc, if_pos hc]
  · rw [if_neg hc, if_neg hc]

/-- Claim C4: after any check_rate_limit call, every stored timestamp of
the checked identity is strictly younger than the window, and, provided the
count invariant held before the call, at most RATE_LIMIT_REQUESTS
timestamps remain. -/
theorem C4_log_invariant (counts : UsageLog) (u : String) (now : ℚ)
    (hlen : (counts u).length ≤ RATE_LIMIT_REQUESTS) :
    (∀ ts ∈ (check_rate_limit counts u now).2 u, now - ts < RATE_LIMIT_WINDOW) ∧
    ((check_rate_limit counts u now).2 u).length ≤ RATE_LIMIT_REQUESTS := by
  by_cases hc : (prune (counts u) now).length ≥ RATE_LIMIT_REQUESTS
  · rw [check_rate_limit_reject_log counts u now hc]
    refine ⟨fun ts hts => ((mem_prune_iff (counts u) now ts).1 hts).2, ?_⟩
    exact le_trans (List.length_filter_le _ _) hlen
  · have htrue : (check_rate_limit counts u now).1 = true := by
      rw [check_rate_limit_admit_eq counts u now hc]
    rw [check_rate_limit_admit_log counts u now htrue]
    constructor
    · intro ts hts
      rcases List.mem_append.1 hts with hin | heq
      · exact ((mem_prune_iff (counts u) now ts).1 hin).2
      · rw [List.mem_singleton.1 heq, sub_self]
        norm_num [RATE_LIMIT_WINDOW, RATE_LIMIT_WINDOW_NAT]
    · rw [List.length_append, List.length_singleton]
      exact Nat.succ_le_of_lt (not_le.1 hc)

/-- Witness for C4: the full log of ten entries for alice satisfies the
count bound, and the state after a call at time 100 satisfies both
invariant parts. -/
theorem C4_log_invariant_witness :
    (countsTen "alice").length ≤ RATE_LIMIT_REQUESTS ∧
    ((∀ ts ∈ (check_rate_limit countsTen "alice" 100).2 "alice",
        (100 : ℚ) - ts < RATE_LIMIT_WINDOW) ∧
     ((check_rate_limit countsTen "alice" 100).2 "alice").length ≤ RATE_LIMIT_REQUESTS) := by
  have h : (countsTen "alice").length ≤ RATE_LIMIT_REQUESTS := by
    norm_num [countsTen, RATE_LIMIT_REQUESTS]
  exact ⟨h, C4_log_invariant countsTen "alice" 100 h⟩

/-- Claim C5: a call for identity u leaves every other identity untouched,
and a later admission decision for the other identity is unchanged by the
call. -/
theorem C5_identity_isolation (counts : UsageLog) (u v : String) (now now2 : ℚ)
    (hne : v ≠ u) :
    (check_rate_limit counts u now).2 v = counts v ∧
    (check_rate_limit ((check_rate_limit counts u now).2) v now2).1
      = (check_rate_limit counts v now2).1 := by
  have hframe : (check_rate_limit counts u now).2 v = counts v := by
    by_cases hc : (prune (counts u) now).length ≥ RATE_LIMIT_REQUESTS
    · rw [check_rate_limit_reject_eq counts u now hc]
      simp only [if_neg hne]
    · rw [check_rate_limit_admit_eq counts u now hc]
      simp only [if_neg hne]
  exact ⟨hframe, check_rate_limit_fst_congr _ counts v now2 hframe⟩

/-- Witness for C5: bob is distinct from alice; a call for alice at time
100 leaves the log of bob unchanged and the decision for bob at time 101
unchanged. -/
theorem C5_identity_isolation_witness :
    ("bob" ≠ "alice") ∧
    ((check_rate_limit countsTen "alice" 100).2 "bob" = countsTen "bob" ∧
     (check_rate_limit ((check_rate_limit countsTen "alice" 100).2) "bob" 101).1
       = (check_rate_limit countsTen "bob" 101).1) := by
  have h : "bob" ≠ "alice" := by decide
  exact ⟨h, C5_identity_isolation countsTen "alice" "bob" 100 101 h⟩

/-! ## Claims about authentication and the endpoint handler -/

/-- Claim C2: a request with no Authorization header is answered 401 with
detail Authorization header missing; a request whose token the verifier
rejects is answered 401 with detail Invalid or expired token. -/
theorem C2_auth_errors (vtok : String → Option Payload) (token : String)
    (hbad : vtok token = none) :
    get_current_user vtok none = Except.error ⟨401, "Authorization header missing"⟩ ∧
    get_current_user vtok (some token)
      = Except.error ⟨401, "Invalid or expired token"⟩ := by
  refine ⟨rfl, ?_⟩
  simp only [get_current_user]
  rw [hbad]

/-- Witness for C2: a verifier rejecting every token, applied to a concrete
token. -/
theorem C2_auth_errors_witness :
    ((fun _ : String => (none : Option Payload)) "some-token" = none) ∧
    (get_current_user (fun _ => none) none
       = Except.error ⟨401, "Authorization header missing"⟩ ∧
     get_current_user (fun _ => none) (some "some-token")
       = Except.error ⟨401, "Invalid or expired token"⟩) :=
  ⟨rfl, C2_auth_errors (fun _ => none) "some-token" rfl⟩

/-- Claim C6: under an admitted rate check, a model outside MODELS yields
the 400 error whose detail names the model and renders the full allow-list,
and a model inside MODELS never yields a 400. -/
theorem C6_model_allowlist {ρ : Type}
    (upstream : String → String → List ToolDescriptor → Except String ρ)
    (request : ModelRequest) (pu : Payload) (counts : UsageLog) (now : ℚ)
    (hadm : (check_rate_limit counts pu.sub now).1 = true) :
    (request.model ∉ MODELS →
      (invoke_model upstream request pu counts now).1
        = Except.error ⟨400, modelNotFoundMsg request.model⟩) ∧
    (request.model ∈ MODELS →
      ∀ d : String,
        (invoke_model upstream request pu counts now).1 ≠ Except.error ⟨400, d⟩) := by
  have hne : ¬ (check_rate_limit counts pu.sub now).1 = false := by
    simp [hadm]
  constructor
  · intro hnotin
    unfold invoke_model
    rw [if_neg hne, if_pos hnotin]
  · intro hin d
    unfold invoke_model
    rw [if_neg hne, if_neg (by simpa using hin)]
    cases hup : upstream request.model request.prompt (toolsFor request) with
    | ok r => simp
    | error e => simp

/-- Witness for C6: an empty log admits the user at time 0; the bad-model
request receives the 400 detail, and the valid-model request can never
receive a 400. -/
theorem C6_model_allowlist_witness :
    (check_rate_limit emptyUsageLog someUser.sub 0).1 = true ∧
    ((badModelRequest.model ∉ MODELS →
       (invoke_model okUpstream badModelRequest someUser emptyUsageLog 0).1
         = Except.error ⟨400, modelNotFoundMsg badModelRequest.model⟩) ∧
     (badModelRequest.model ∈ MODELS →
       ∀ d : String,
         (invoke_model okUpstream badModelRequest someUser emptyUsageLog 0).1
           ≠ Except.error ⟨400, d⟩)) :=
  ⟨rfl, C6_model_allowlist okUpstream badModelRequest someUser emptyUsageLog 0 rfl⟩

/-- Claim C7: for every request that reaches the upstream call, the tools
list handed to the gateway is toolsFor request: the one-element list with
the web-search descriptor when web_search is set, the empty list otherwise;
the outcome is fully determined by the gateway result on that list. -/
theorem C7_tools_list {ρ : Type}
    (upstream : String → String → List ToolDescriptor → Except String ρ)
    (request : ModelRequest) (pu : Payload) (counts : UsageLog) (now : ℚ)
    (hadm : (check_rate_limit counts pu.sub now).1 = true)
    (hmodel : request.model ∈ MODELS) :
    (invoke_model upstream request pu counts now).1 =
      (match upstream request.model request.prompt (toolsFor request) with
       | Except.ok r => Except.ok r
       | Except.error _ => Except.error ⟨500, openAIFailureMsg⟩) ∧
    (request.web_search = true → toolsFor request = [webSearchPreviewTool]) ∧
    (request.web_search = false → toolsFor request = []) := by
  have hne : ¬ (check_rate_limit counts pu.sub now).1 = false := by
    simp [hadm]
  refine ⟨?_, fun hw => by simp [toolsFor, hw], fun hw => by simp [toolsFor, hw]⟩
  unfold invoke_model
  rw [if_neg hne, if_neg (by simpa using hmodel)]
  cases upstream request.model request.prompt (toolsFor request) <;> rfl

/-- Witness for C7: the concrete request with web_search set, an empty log
and the succeeding oracle. -/
theorem C7_tools_list_witness :
    ((check_rate_limit emptyUsageLog someUser.sub 0).1 = true ∧
     someRequest.model ∈ MODELS) ∧
    ((invoke_model okUpstream someRequest someUser emptyUsageLog 0).1 =
       (match okUpstream someRequest.model someRequest.prompt (toolsFor someRequest) with
        | Except.ok r => Except.ok r
        | Except.error _ => Except.error ⟨500, openAIFailureMsg⟩) ∧
     (someRequest.web_search = true → toolsFor someRequest = [webSearchPreviewTool]) ∧
     (someRequest.web_search = false → toolsFor someRequest = [])) := by
  have hm : someRequest.model ∈ MODELS := by decide
  exact ⟨⟨rfl, hm⟩, C7_tools_list okUpstream someRequest someUser emptyUsageLog 0 rfl hm⟩

/-- Claim C8: whatever the content of the exception the upstream gateway
raises, the caller sees status 500 with the fixed generic detail. -/
theorem C8_upstream_error_opaque {ρ : Type}
    (upstream : String → String → List ToolDescriptor → Except String ρ)
    (request : ModelRequest) (pu : Payload) (counts : UsageLog) (now : ℚ) (e : String)
    (hadm : (check_rate_limit counts pu.sub now).1 = true)
    (hmodel : request.model ∈ MODELS)
    (hup : upstream request.model request.prompt (toolsFor request) = Except.error e) :
    (invoke_model upstream request pu counts now).1
      = Except.error ⟨500, openAIFailureMsg⟩ := by
  have hne : ¬ (check_rate_limit counts pu.sub now).1 = false := by
    simp [hadm]
  unfold invoke_model
  rw [if_neg hne, if_neg (by simpa using hmodel), hup]

/-- Witness for C8: the failing oracle with a distinctive message still
yields the generic 500 detail. -/
theorem C8_upstream_error_opaque_witness :
    ((check_rate_limit emptyUsageLog someUser.sub 0).1 = true ∧
     someRequest.model ∈ MODELS ∧
     failUpstream someRequest.model someRequest.prompt (toolsFor someRequest)
       = Except.error "connection refused by api.openai.com") ∧
    (invoke_model failUpstream someRequest someUser emptyUsageLog 0).1
      = Except.error ⟨500, openAIFailureMsg⟩ := by
  have hm : someRequest.model ∈ MODELS := by decide
  exact ⟨⟨rfl, hm, rfl⟩,
    C8_upstream_error_opaque failUpstream someRequest someUser emptyUsageLog 0
      "connection refused by api.openai.com" rfl hm rfl⟩

/-- Claim C9: the temperature field never reaches the upstream call; two
requests within the validated bounds differing only in temperature produce
the same outcome and the same usage log against every gateway. -/
theorem C9_temperature_independent {ρ : Type}
    (upstream : String → String → List ToolDescriptor → Except String ρ)
    (r1 r2 : ModelRequest) (pu : Payload) (counts : UsageLog) (now : ℚ)
    (hp : r1.prompt = r2.prompt) (hm : r1.model = r2.model)
    (hw : r1.web_search = r2.web_search)
    (h1l : 0 ≤ r1.temperature) (h1u : r1.temperature ≤ 2)
    (h2l : 0 ≤ r2.temperature) (h2u : r2.temperature ≤ 2) :
    invoke_model upstream r1 pu counts now = invoke_model upstream r2 pu counts now := by
  unfold invoke_model toolsFor
  rw [hp, hm, hw]

/-- Witness for C9: the concrete request at temperature 1 against its copy
at temperature 2. -/
theorem C9_temperature_independent_witness :
    (someRequest.prompt = hotRequest.prompt ∧ someRequest.model = hotRequest.model ∧
     someRequest.web_search = hotRequest.web_search ∧
     (0 : ℚ) ≤ someRequest.temperature ∧ someRequest.temperature ≤ 2 ∧
     (0 : ℚ) ≤ hotRequest.temperature ∧ hotRequest.temperature ≤ 2) ∧
    invoke_model okUpstream someRequest someUser emptyUsageLog 0
      = invoke_model okUpstream hotRequest someUser emptyUsageLog 0 := by
  refine ⟨⟨rfl, rfl, rfl, ?_, ?_, ?_, ?_⟩,
    C9_temperature_independent okUpstream someRequest hotRequest someUser emptyUsageLog 0
      rfl rfl rfl ?_ ?_ ?_ ?_⟩ <;>
    norm_num [someRequest, hotRequest]

/-- Claim C10: a request admitted by the rate check whose model fails
validation gets the 400 answer while its timestamp is already recorded in
the usage log, so the failed attempt consumes quota. -/
theorem C10_quota_spent_on_invalid_model {ρ : Type}
    (upstream : String → String → List ToolDescriptor → Except String ρ)
    (request : ModelRequest) (pu : Payload) (counts : UsageLog) (now : ℚ)
    (hadm : (check_rate_limit counts pu.sub now).1 = true)
    (hbad : request.model ∉ MODELS) :
    (invoke_model upstream request pu counts now).1
      = Except.error ⟨400, modelNotFoundMsg request.model⟩ ∧
    (invoke_model upstream request pu counts now).2 pu.sub
      = prune (counts pu.sub) now ++ [now] := by
  have hne : ¬ (check_rate_limit counts pu.sub now).1 = false := by
    simp [hadm]
  have hstate : (invoke_model upstream request pu counts now).2
      = (check_rate_limit counts pu.sub now).2 := by
    unfold invoke_model
    rw [if_neg hne, if_pos hbad]
  constructor
  · unfold invoke_model
    rw [if_neg hne, if_pos hbad]
  · rw [hstate]
    exact check_rate_limit_admit_log counts pu.sub now hadm

/-- Witness for C10: the bad-model request on an empty log at time 0 is
answered 400 and leaves the timestamp 0 recorded for the user. -/
theorem C10_quota_spent_on_invalid_model_witness :
    ((check_rate_limit emptyUsageLog someUser.sub 0).1 = true ∧
     badModelRequest.model ∉ MODELS) ∧
    ((invoke_model okUpstream badModelRequest someUser emptyUsageLog 0).1
       = Except.error ⟨400, modelNotFoundMsg badModelRequest.model⟩ ∧
     (invoke_model okUpstream badModelRequest someUser emptyUsageLog 0).2 someUser.sub
       = prune (emptyUsageLog someUser.sub) 0 ++ [0]) := by
  have hb : badModelRequest.model ∉ MODELS := by decide
  exact ⟨⟨rfl, hb⟩,
    C10_quota_spent_on_invalid_model okUpstream badModelRequest someUser emptyUsageLog 0 rfl hb⟩
